import Mathlib

/-!
Verification of `lib/solaar/configuration.py` (Solaar per-device settings store).

The Python module is shallowly embedded: Python dicts become association
lists preserving insertion order (setting an existing key keeps its
position, as in CPython), Python's heterogeneous JSON/YAML values become
the inductive `Val`, fallible code (code that can raise) returns `Option`,
and the module-global state threaded by `persister`/`save` is passed
explicitly.
-/

set_option autoImplicit false

namespace SolaarCfg

/-- A Python dict key as they occur in this module: either a string or an
integer (nested diversion tables are keyed by integers after conversion). -/
inductive Key where
  | ks : String → Key
  | ki : Int → Key
deriving DecidableEq

/-- A Python value as deserialized from YAML/JSON and manipulated by
`configuration.py`: `None`, booleans, integers, strings, and dicts
(association lists in insertion order, keys possibly mixed). -/
inductive Val where
  | vNull : Val
  | vBool : Bool → Val
  | vInt : Int → Val
  | vStr : String → Val
  | vDict : List (Key × Val) → Val

/-- Python truthiness of a `Val` (`if divert:` etc.). -/
def truthyVal : Val → Bool
  | .vNull => false
  | .vBool b => b
  | .vInt n => n != 0
  | .vStr s => s != ""
  | .vDict m => !m.isEmpty

/-- `d.get(k)` on an association-list dict. -/
def lookupK (k : Key) : List (Key × Val) → Option Val
  | [] => none
  | (k2, v) :: rest => if k2 = k then some v else lookupK k rest

/-- `d[k] = v` on an association-list dict: replace in place if the key is
present (CPython keeps the key's position), otherwise append. -/
def setK : List (Key × Val) → Key → Val → List (Key × Val)
  | [], k, v => [(k, v)]
  | (k2, v2) :: rest, k, v =>
    if k2 = k then (k, v) :: rest else (k2, v2) :: setK rest k v

/-- `d.pop(k, None)` on an association-list dict. -/
def popK (m : List (Key × Val)) (k : Key) : List (Key × Val) :=
  m.filter (fun p => p.1 ≠ k)

/-- A `_DeviceEntry`'s contents: a dict whose top-level keys are strings
(`_DeviceEntry(**data)` requires string keys). -/
abbrev Entry := List (String × Val)

/-- `e.get(k)` on an `Entry`. -/
def lookupE (k : String) : Entry → Option Val
  | [] => none
  | (k2, v) :: rest => if k2 = k then some v else lookupE k rest

/-- `dict.__setitem__` on an `Entry` (replace in place or append). -/
def dictSet : Entry → String → Val → Entry
  | [], k, v => [(k, v)]
  | (k2, v2) :: rest, k, v =>
    if k2 = k then (k, v) :: rest else (k2, v2) :: dictSet rest k v

/-- Monadic map over `Option`, written out so that proofs can follow the
recursion directly: `some` of the image when every element succeeds, and
`none` as soon as one element fails (a raised exception). -/
def mapOpt {α β : Type} (f : α → Option β) : List α → Option (List β)
  | [] => some []
  | a :: l =>
    match f a with
    | some b =>
      match mapOpt f l with
      | some l2 => some (b :: l2)
      | none => none
    | none => none

/-- Helper for `pySplitColon`: split a character list at every `':'`,
keeping empty pieces, with `cur` the (reversed) piece read so far. -/
def splitColonAux : List Char → List Char → List String
  | [], cur => [String.mk cur.reverse]
  | c :: rest, cur =>
    if c = ':' then String.mk cur.reverse :: splitColonAux rest []
    else splitColonAux rest (c :: cur)

/-- Python `s.split(":")`: every `':'` separates, empty pieces are kept,
and a string with no `':'` yields the one-element list `[s]`. -/
def pySplitColon (s : String) : List String :=
  splitColonAux s.toList []

/-- The numeric value of a decimal digit character, `none` otherwise. -/
def digitVal (c : Char) : Option Nat :=
  if '0' ≤ c ∧ c ≤ '9' then some (c.toNat - '0'.toNat) else none

/-- A non-empty all-digit character list as a number, `none` otherwise. -/
def digitsToNat : List Char → Option Nat
  | [] => none
  | cs =>
    cs.foldl
      (fun acc c =>
        match acc, digitVal c with
        | some n, some d => some (n * 10 + d)
        | _, _ => none)
      (some 0)

/-- Python `int(s)` on a string: optional sign followed by digits;
anything else raises `ValueError`. -/
def strToInt (s : String) : Option Int :=
  match s.toList with
  | '-' :: rest => (digitsToNat rest).map (fun n => -(n : Int))
  | '+' :: rest => (digitsToNat rest).map (fun n => (n : Int))
  | cs => (digitsToNat cs).map (fun n => (n : Int))

/-- Python `s.startswith("_")`. -/
def headIsUnderscore (s : String) : Bool :=
  match s.toList with
  | c :: _ => c = '_'
  | [] => false

/-- Python `int(v)` on a truthy YAML/JSON value: booleans map to 0/1,
integers are unchanged, strings are parsed, anything else raises. -/
def pyInt : Val → Option Int
  | .vBool b => some (if b then 1 else 0)
  | .vInt n => some n
  | .vStr s => strToInt s
  | _ => none

/-- Whether a `Val` is a mapping (`isinstance(device, dict)`). -/
def isDictVal : Val → Bool
  | .vDict _ => true
  | _ => false

/-- Whether a dict key is an integer (`isinstance(k, int)`). -/
def isIntKey : Key → Bool
  | .ki _ => true
  | .ks _ => false

/-- Python `v != current_version` where `v` was loaded from the file and
the current version is a string: equal only when `v` is that string. -/
def valEqStr (v : Val) (s : String) : Bool :=
  match v with
  | .vStr t => t == s
  | _ => false

/-- The default `_sensitive` mapping installed when the key is unset
(`configuration.py` lines 109-114). -/
def defaultSensitive : Val :=
  .vDict
    [(.ks "hires-smooth-resolution", .vStr "ignore"),
     (.ks "hires-smooth-invert", .vStr "ignore"),
     (.ks "hires-scroll-mode", .vStr "ignore")]

/-- Lines 97-108 of `_device_entry_from_config_dict`: fold legacy
`dpi-sliding`/`mouse-gestures` values into a truthy `divert-keys` mapping
and drop its non-integer keys.  `none` models a raised exception (a truthy
non-dict `divert-keys`, or `int()` failing on a truthy legacy value). -/
def processDivert (data : List (Key × Val)) : Option (List (Key × Val)) :=
  match lookupK (.ks "divert-keys") data with
  | some dv =>
    if truthyVal dv then
      match dv with
      | .vDict dm =>
        let step1 : Option (List (Key × Val)) :=
          match lookupK (.ks "dpi-sliding") data with
          | some sl =>
            if truthyVal sl then (pyInt sl).map (fun i => setK dm (.ki i) (.vInt 3))
            else some dm
          | none => some dm
        match step1 with
        | some dm1 =>
          let data1 := popK data (.ks "dpi-sliding")
          let step2 : Option (List (Key × Val)) :=
            match lookupK (.ks "mouse-gestures") data1 with
            | some g =>
              if truthyVal g then (pyInt g).map (fun i => setK dm1 (.ki i) (.vInt 2))
              else some dm1
            | none => some dm1
          match step2 with
          | some dm2 =>
            let data2 := popK data1 (.ks "mouse-gestures")
            some (setK data2 (.ks "divert-keys") (.vDict (dm2.filter (fun p => isIntKey p.1))))
          | none => none
        | none => none
      | _ => none
    else some data
  | none => some data

/-- Lines 109-114: `data.get("_sensitive", None) is None` — key absent or
explicitly `None` — installs the default scroll-wheel policy mapping. -/
def applySensitiveDefault (data : List (Key × Val)) : List (Key × Val) :=
  match lookupK (.ks "_sensitive") data with
  | none => setK data (.ks "_sensitive") defaultSensitive
  | some .vNull => setK data (.ks "_sensitive") defaultSensitive
  | some _ => data

/-- `_DeviceEntry(**data)`: keyword expansion requires every key to be a
string; a non-string key raises. -/
def toEntry (data : List (Key × Val)) : Option Entry :=
  mapOpt
    (fun p =>
      match p.1 with
      | .ks s => some (s, p.2)
      | .ki _ => none)
    data

/-- `_device_entry_from_config_dict(data, discard_derived_properties)`
(lines 96-118), as a fallible function on one record dict. -/
def _device_entry_from_config_dict (discard : Bool) (data : List (Key × Val)) : Option Entry :=
  match processDivert data with
  | some d1 =>
    let d2 := applySensitiveDefault d1
    let d3 := if discard then popK (popK d2 (.ks "_absent")) (.ks "_battery") else d2
    toEntry d3
  | none => none

/-- One iteration of the record loop in `_parse_config` (lines 88-90):
`assert isinstance(device, dict)` followed by the record normalization;
`none` models the raised exception caught at line 91. -/
def parseOne (discard : Bool) (d : Val) : Option Entry :=
  match d with
  | .vDict m => _device_entry_from_config_dict discard m
  | _ => none

/-- An element of the in-memory document `_config`: the leading version
string, or a `_DeviceEntry`. -/
inductive ConfigElem where
  | version : Val → ConfigElem
  | entry : Entry → ConfigElem

/-- The record loop of `_parse_config`: records parsed before the first
failure are kept (they were already appended when the exception is caught
at line 91), the failing record and everything after it are dropped. -/
def parseDevices (discard : Bool) : List Val → List ConfigElem
  | [] => []
  | d :: ds =>
    match parseOne discard d with
    | some e => .entry e :: parseDevices discard ds
    | none => []

/-- `_parse_config(loaded_config, config_path)` (lines 70-93) for a
list-shaped loaded document: starts from `[current_version]`, reads the
loaded version tag to decide `discard_derived_properties`, then parses
the records, stopping (but keeping what it has) at the first failure. -/
def _parse_config (cur : String) (loaded : List Val) : List ConfigElem :=
  match loaded with
  | [] => [.version (.vStr cur)]
  | v0 :: rest => .version (.vStr cur) :: parseDevices (!valEqStr v0 cur) rest

/-- The dict comprehension at line 169: rebuild a nested mapping while
converting string keys to integers (`int(dk)` may raise), keeping
integer keys as they are.  Built left to right with dict-insertion
semantics, as the comprehension does. -/
def convKeys : List (Key × Val) → List (Key × Val) → Option (List (Key × Val))
  | acc, [] => some acc
  | acc, (k, v) :: rest =>
    match k with
    | .ks s =>
      match strToInt s with
      | some n => convKeys (setK acc (.ki n) v) rest
      | none => none
    | .ki n => convKeys (setK acc (.ki n) v) rest

/-- Lines 167-170: for each entry of the device dict whose key is a string
not starting with `_` and whose value is a dict, convert that value's
string keys to integers; every other entry is reassigned unchanged. -/
def convDevLoop (m : List (Key × Val)) : Option (List (Key × Val)) :=
  mapOpt
    (fun p =>
      match p with
      | (.ks s, .vDict dm) =>
        if !headIsUnderscore s then (convKeys [] dm).map (fun dm2 => (Key.ks s, Val.vDict dm2))
        else some p
      | _ => some p)
    m

/-- Lines 171-174: drop the key `k` exactly when its value is a boolean
(`v is True or v is False`). -/
def dropBoolKey (m : List (Key × Val)) (k : String) : List (Key × Val) :=
  match lookupK (.ks k) m with
  | some (.vBool _) => popK m (.ks k)
  | _ => m

/-- Lines 175-177: rename a legacy `_name` key (regardless of its value)
to `_NAME`. -/
def renameName (m : List (Key × Val)) : List (Key × Val) :=
  match lookupK (.ks "_name") m with
  | some v => popK (setK m (.ks "_NAME") v) (.ks "_name")
  | none => m

/-- The body of the two-part-key branch of `_convert_json` (lines
165-177) on one device value: fill `_wpid`/`_serial` from the key parts
when absent or falsy, convert nested diversion-table keys, drop
boolean-valued legacy fields, rename `_name`.  A non-dict value raises
(`dev.get` on it fails), giving `none`. -/
def convDevice (p0 p1 : String) (dev : Val) : Option Val :=
  match dev with
  | .vDict m =>
    let m1 :=
      setK m (.ks "_wpid")
        (match lookupK (.ks "_wpid") m with
         | some w => if truthyVal w then w else .vStr p0
         | none => .vStr p0)
    let m2 :=
      setK m1 (.ks "_serial")
        (match lookupK (.ks "_serial") m1 with
         | some s => if truthyVal s then s else .vStr p1
         | none => .vStr p1)
    match convDevLoop m2 with
    | some m3 =>
      let m4 := dropBoolKey (dropBoolKey m3 "mouse-gestures") "dpi-sliding"
      some (.vDict (renameName m4))
    | none => none
  | _ => none

/-- One top-level entry of the legacy JSON dict as `_convert_json` treats
it: keys splitting on `":"` into exactly two parts are converted, every
other key contributes nothing. -/
def convertKeyed (kv : String × Val) : Option Val :=
  match pySplitColon kv.1 with
  | [p0, p1] => convDevice p0 p1 kv.2
  | _ => none

/-- The `for key, dev in json_dict.items()` loop of `_convert_json`
(lines 162-178): converted devices in document order; a raised exception
anywhere loses the whole conversion (`none`). -/
def convertLoop : List (String × Val) → Option (List Val)
  | [] => some []
  | kv :: rest =>
    match pySplitColon kv.1 with
    | [p0, p1] =>
      match convDevice p0 p1 kv.2 with
      | some d =>
        match convertLoop rest with
        | some tl => some (d :: tl)
        | none => none
      | none => none
    | _ => convertLoop rest

/-- `_convert_json(json_dict)` (lines 160-179): element 0 is the value of
the top-level `_version` key (Python `None` when missing), followed by
the converted two-part-key device entries in document order. -/
def _convert_json (j : List (String × Val)) : Option (List Val) :=
  match convertLoop j with
  | some tl => some (((lookupE "_version" j).getD .vNull) :: tl)
  | none => none

/-- Python truthiness of an optional string attribute (`if wpid:`). -/
def truthyOpt : Option String → Bool
  | some s => s != ""
  | none => false

/-- Python `x == c.get(k)` where `x` is an optional string and the dict
may hold any value: a string equals a stored `vStr` of the same text,
`None` equals an absent key or a stored `None`, nothing else compares
equal. -/
def optEqVal : Option String → Option Val → Bool
  | some s, some (.vStr t) => s == t
  | none, none => true
  | none, some .vNull => true
  | _, _ => false

/-- Python `s != self.get(k)` for a (non-`None`) string `s`. -/
def strNeGet (s : String) : Option Val → Bool
  | some (.vStr t) => s != t
  | _ => true

/-- One guarded field write of `_DeviceEntry.update` (lines 191-200):
write the value only if it is truthy and differs from the stored one,
through `super().__setitem__` — the plain dict setter. -/
def updFld (e : Entry) (k : String) (v : Option String) : Entry :=
  match v with
  | none => e
  | some s =>
    if s = "" then e
    else if strNeGet s (lookupE k e) then dictSet e k (.vStr s)
    else e

/-- `_DeviceEntry.__setitem__` (lines 186-188): a plain dict write
followed by `save(defer=True)` — it requests exactly one deferred save.
The second component counts save requests issued by the call. -/
def entrySetItem (e : Entry) (k : String) (v : Val) : Entry × Nat :=
  (dictSet e k v, 1)

/-- `_DeviceEntry.update(name, wpid, serial, modelId, unitId)` (lines
190-200).  All five writes go through `super().__setitem__`, never
through the overridden `__setitem__`, so the call issues no save
request: the second component — save requests issued — is 0. -/
def entryUpdate (e : Entry) (name wpid serial modelId unitId : Option String) : Entry × Nat :=
  (updFld (updFld (updFld (updFld (updFld e "_NAME" name) "_wpid" wpid)
    "_serial" serial) "_modelId" modelId) "_unitId" unitId, 0)

/-- Modelled from the spec: the live device's identity snapshot
`(name, wpid, serial, modelId, unitId, reachable-flag)` passed to
`persister` — the device class itself lives outside this module.  The
spec presents one display name and one serial, so `device.name` and
`device._name` (resp. `device.serial` and `device._serial`) are one
field here. -/
structure Device where
  name : Option String
  wpid : Option String
  serial : Option String
  modelId : Option String
  unitId : Option String
  online : Bool

/-- Line 243: `modelId = device.modelId if device.modelId !=
"000000000000" else device._name if device.modelId else None`. -/
def effectiveModelId (d : Device) : Option String :=
  if d.modelId ≠ some "000000000000" then d.modelId
  else if truthyOpt d.modelId then d.name
  else none

/-- Line 244: `unitId = device.unitId if device.modelId !=
"000000000000" else device._serial if device.unitId else None` — note
the source tests `device.modelId`, not `device.unitId`, against the
sentinel. -/
def effectiveUnitId (d : Device) : Option String :=
  if d.modelId ≠ some "000000000000" then d.unitId
  else if truthyOpt d.unitId then d.serial
  else none

/-- The inner `match` of `persister` (lines 233-236): a record matches on
the (wpid, serial) pair or on the (modelId, unitId) pair, each component
checked truthy on the identity side before comparison. -/
def pmatch (wpid serial modelId unitId : Option String) (c : Entry) : Bool :=
  (truthyOpt wpid && optEqVal wpid (lookupE "_wpid" c) &&
   truthyOpt serial && optEqVal serial (lookupE "_serial" c)) ||
  (truthyOpt modelId && optEqVal modelId (lookupE "_modelId" c) &&
   truthyOpt unitId && optEqVal unitId (lookupE "_unitId" c))

/-- The `for c in _config` scan of `persister` (lines 245-248): the first
`_DeviceEntry` that matches, skipping the version element. -/
def findEntry (w s m u : Option String) : List ConfigElem → Option Entry
  | [] => none
  | .version _ :: rest => findEntry w s m u rest
  | .entry c :: rest => if pmatch w s m u c then some c else findEntry w s m u rest

/-- Pure rendering of the in-place mutation of the matched record: the
first matching `_DeviceEntry` of the document, the object `entry.update`
mutated, replaced by its updated value. -/
def replaceFirstEntry (w s m u : Option String) (e2 : Entry) : List ConfigElem → List ConfigElem
  | [] => []
  | .version v :: rest => .version v :: replaceFirstEntry w s m u e2 rest
  | .entry c :: rest =>
    if pmatch w s m u c then .entry e2 :: rest
    else .entry c :: replaceFirstEntry w s m u e2 rest

/-- `persister(device)` (lines 232-257) on an already-loaded document
(the lazy `_load` of lines 239-240 is file I/O and is outside this
model): find the first matching record and update it in place, or —
only for a reachable device — append a fresh updated record; an
unreachable unmatched device gets `None` and an untouched document. -/
def persister (d : Device) (cfg : List ConfigElem) : Option Entry × List ConfigElem :=
  match findEntry d.wpid d.serial (effectiveModelId d) (effectiveUnitId d) cfg with
  | some c =>
    let e2 := (entryUpdate c d.name d.wpid d.serial (effectiveModelId d) (effectiveUnitId d)).1
    (some e2, replaceFirstEntry d.wpid d.serial (effectiveModelId d) (effectiveUnitId d) e2 cfg)
  | none =>
    if !d.online then (none, cfg)
    else
      let e2 := (entryUpdate [] d.name d.wpid d.serial (effectiveModelId d) (effectiveUnitId d)).1
      (some e2, cfg ++ [ConfigElem.entry e2])

/-- The scheduler's shared mutable state: how many deferred-write timers
are pending (the code's `save_timer`, counted so that "at most one" is a
provable fact rather than a typing accident), and how many disk writes
have completed. -/
structure SchedState where
  pendingTimers : Nat
  writes : Nat

/-- `do_save()` (lines 146-157): cancel and clear any pending timer, then
write the document. -/
def do_save (st : SchedState) : SchedState :=
  { pendingTimers := 0, writes := st.writes + 1 }

/-- `save(defer)` (lines 126-143).  `cfgNonEmpty` models the `not
_config` early return and `dirOk` the directory-creation guard;
`deferSaves` is the module flag `defer_saves`.  A non-deferred request
(or deferred saving disabled) writes now via `do_save`; a deferred
request starts a timer only when none is pending. -/
def save (deferSaves defer cfgNonEmpty dirOk : Bool) (st : SchedState) : SchedState :=
  if !cfgNonEmpty then st
  else if !dirOk then st
  else if !defer || !deferSaves then do_save st
  else if st.pendingTimers = 0 then { st with pendingTimers := st.pendingTimers + 1 }
  else st

/-- An event acting on the scheduler state: a call to `save`, or the
expiry of the 5-second timer (which runs `do_save`). -/
inductive SchedOp where
  | requestSave (defer cfgNonEmpty dirOk : Bool)
  | timerExpiry

/-- One scheduler step. -/
def schedStep (deferSaves : Bool) (st : SchedState) : SchedOp → SchedState
  | .requestSave d c k => save deferSaves d c k st
  | .timerExpiry => do_save st

/-- A sequence of scheduler events. -/
def schedRun (deferSaves : Bool) (st : SchedState) (ops : List SchedOp) : SchedState :=
  ops.foldl (schedStep deferSaves) st

/-- The matching rule in the words of the spec (claim C4): a record
matches when either the (wpid, serial) pair or the (modelId, unitId)
pair agrees with the record's stored fields, both components non-empty.
Stated independently of `pmatch` to be compared with it. -/
def matchSpec (w s m u : Option String) (c : Entry) : Prop :=
  (∃ sw ss, w = some sw ∧ s = some ss ∧ sw ≠ "" ∧ ss ≠ "" ∧
    lookupE "_wpid" c = some (.vStr sw) ∧ lookupE "_serial" c = some (.vStr ss)) ∨
  (∃ sm su, m = some sm ∧ u = some su ∧ sm ≠ "" ∧ su ≠ "" ∧
    lookupE "_modelId" c = some (.vStr sm) ∧ lookupE "_unitId" c = some (.vStr su))

/-! ### Helper lemmas -/

theorem lookup_dictSet_self (e : Entry) (k : String) (v : Val) :
    lookupE k (dictSet e k v) = some v := by
  induction e with
  | nil => simp [dictSet, lookupE]
  | cons p rest ih =>
    obtain ⟨pk, pv⟩ := p
    by_cases h : pk = k
    · subst h
      simp [dictSet, lookupE]
    · simp [dictSet, lookupE, h, ih]

theorem lookup_dictSet_ne (e : Entry) (k k2 : String) (v : Val) (h : k ≠ k2) :
    lookupE k (dictSet e k2 v) = lookupE k e := by
  have h' : k2 ≠ k := Ne.symm h
  induction e with
  | nil => simp [dictSet, lookupE, h']
  | cons p rest ih =>
    obtain ⟨pk, pv⟩ := p
    by_cases h2 : pk = k2
    · subst h2
      simp [dictSet, lookupE, h']
    · by_cases h3 : pk = k
      · subst h3
        simp [dictSet, lookupE, h2]
      · simp [dictSet, lookupE, h2, h3, ih]

theorem strNeGet_eq_false (s : String) (v : Option Val) (h : strNeGet s v = false) :
    v = some (.vStr s) := by
  match v with
  | none => simp [strNeGet] at h
  | some .vNull => simp [strNeGet] at h
  | some (.vBool _) => simp [strNeGet] at h
  | some (.vInt _) => simp [strNeGet] at h
  | some (.vDict _) => simp [strNeGet] at h
  | some (.vStr t) =>
    simp only [strNeGet, bne_eq_false_iff_eq] at h
    rw [h]

theorem updFld_some_def (e : Entry) (k s : String) :
    updFld e k (some s) =
      if s = "" then e
      else if strNeGet s (lookupE k e) = true then dictSet e k (.vStr s)
      else e := rfl

theorem lookup_updFld_self (e : Entry) (k : String) (s : String) (hs : s ≠ "") :
    lookupE k (updFld e k (some s)) = some (.vStr s) := by
  rw [updFld_some_def, if_neg hs]
  by_cases h : strNeGet s (lookupE k e) = true
  · rw [if_pos h]
    exact lookup_dictSet_self e k (.vStr s)
  · rw [if_neg h]
    refine strNeGet_eq_false s (lookupE k e) ?hf
    cases hx : strNeGet s (lookupE k e)
    · rfl
    · exact absurd hx h

theorem lookup_updFld_ne (e : Entry) (k k2 : String) (v : Option String) (h : k ≠ k2) :
    lookupE k (updFld e k2 v) = lookupE k e := by
  match v with
  | none => rfl
  | some s =>
    rw [updFld_some_def]
    by_cases h1 : s = ""
    · rw [if_pos h1]
    · rw [if_neg h1]
      by_cases h2 : strNeGet s (lookupE k2 e) = true
      · rw [if_pos h2]
        exact lookup_dictSet_ne e k k2 (.vStr s) h
      · rw [if_neg h2]

theorem updFld_noop (e : Entry) (k : String) (s : String)
    (h : lookupE k e = some (.vStr s)) : updFld e k (some s) = e := by
  rw [updFld_some_def]
  by_cases h1 : s = ""
  · rw [if_pos h1]
  · rw [if_neg h1, h]
    simp [strNeGet]

theorem truthyOpt_eq_true_iff (w : Option String) :
    truthyOpt w = true ↔ ∃ sw, w = some sw ∧ sw ≠ "" := by
  match w with
  | none => simp [truthyOpt]
  | some s => simp [truthyOpt]

theorem optEqVal_some_iff (s : String) (lv : Option Val) :
    optEqVal (some s) lv = true ↔ lv = some (.vStr s) := by
  match lv with
  | none => simp [optEqVal]
  | some .vNull => simp [optEqVal]
  | some (.vBool _) => simp [optEqVal]
  | some (.vInt _) => simp [optEqVal]
  | some (.vDict _) => simp [optEqVal]
  | some (.vStr t) =>
    simp only [optEqVal, beq_iff_eq, Option.some.injEq, Val.vStr.injEq]
    exact ⟨fun h => h ▸ rfl, fun h => h.symm⟩

theorem findEntry_cons_first (w s m u : Option String) :
    ∀ (pre : List ConfigElem) (r : Entry) (post : List ConfigElem),
      (∀ c, ConfigElem.entry c ∈ pre → pmatch w s m u c = false) →
      pmatch w s m u r = true →
      findEntry w s m u (pre ++ ConfigElem.entry r :: post) = some r := by
  intro pre
  induction pre with
  | nil =>
    intro r post _ hr
    simp [findEntry, hr]
  | cons a rest ih =>
    intro r post hpre hr
    match a with
    | .version v =>
      simpa [findEntry] using ih r post (fun c hc => hpre c (List.mem_cons_of_mem _ hc)) hr
    | .entry c =>
      have hc : pmatch w s m u c = false := hpre c (List.mem_cons_self _ _)
      simpa [findEntry, hc] using ih r post (fun c2 hc2 => hpre c2 (List.mem_cons_of_mem _ hc2)) hr

theorem parseOne_not_dict (d : Bool) (v : Val) (h : isDictVal v = false) :
    parseOne d v = none := by
  match v with
  | .vNull => rfl
  | .vBool _ => rfl
  | .vInt _ => rfl
  | .vStr _ => rfl
  | .vDict _ => simp [isDictVal] at h

theorem parseDevices_of_mapOpt (d : Bool) :
    ∀ (pre : List Val) (es : List Entry) (bad : Val) (post : List Val),
      mapOpt (parseOne d) pre = some es →
      parseOne d bad = none →
      parseDevices d (pre ++ bad :: post) = es.map ConfigElem.entry := by
  intro pre
  induction pre with
  | nil =>
    intro es bad post hm hb
    simp only [mapOpt, Option.some.injEq] at hm
    subst hm
    simp [parseDevices, hb]
  | cons a rest ih =>
    intro es bad post hm hb
    simp only [mapOpt] at hm
    match ha : parseOne d a with
    | none => rw [ha] at hm; exact absurd hm (by simp)
    | some e0 =>
      rw [ha] at hm
      match hr : mapOpt (parseOne d) rest with
      | none => rw [hr] at hm; exact absurd hm (by simp)
      | some es0 =>
        rw [hr] at hm
        simp only [Option.some.injEq] at hm
        subst hm
        simp only [List.cons_append, parseDevices, ha, List.map_cons]
        exact congrArg (List.cons (ConfigElem.entry e0)) (ih es0 bad post hr hb)

theorem convertLoop_filter :
    ∀ (j : List (String × Val)) (tl : List Val),
      convertLoop j = some tl →
      mapOpt convertKeyed (j.filter fun kv => (pySplitColon kv.1).length == 2) = some tl := by
  intro j
  induction j with
  | nil =>
    intro tl h
    simp only [convertLoop, Option.some.injEq] at h
    subst h
    rfl
  | cons kv rest ih =>
    intro tl h
    rw [convertLoop] at h
    match hs : pySplitColon kv.1 with
    | [] =>
      rw [hs] at h
      have h2 : convertLoop rest = some tl := h
      simp only [List.filter_cons, hs, List.length_nil,
        show ((0 : Nat) == 2) = false from rfl, Bool.false_eq_true, if_false]
      exact ih tl h2
    | [p0] =>
      rw [hs] at h
      have h2 : convertLoop rest = some tl := h
      simp only [List.filter_cons, hs, List.length_cons, List.length_nil,
        show ((1 : Nat) == 2) = false from rfl, Bool.false_eq_true, if_false]
      exact ih tl h2
    | [p0, p1] =>
      rw [hs] at h
      have h2 :
          (match convDevice p0 p1 kv.2 with
           | some d =>
             match convertLoop rest with
             | some tl2 => some (d :: tl2)
             | none => none
           | none => none) = some tl := h
      simp only [List.filter_cons, hs, List.length_cons, List.length_nil,
        show ((2 : Nat) == 2) = true from rfl, if_true]
      match hd : convDevice p0 p1 kv.2 with
      | none => rw [hd] at h2; exact absurd h2 (by simp)
      | some dv =>
        rw [hd] at h2
        match hr : convertLoop rest with
        | none => rw [hr] at h2; exact absurd h2 (by simp)
        | some tl0 =>
          rw [hr] at h2
          simp only [Option.some.injEq] at h2
          subst h2
          simp only [mapOpt, convertKeyed, hs, hd, ih tl0 hr]
    | p0 :: p1 :: p2 :: ps =>
      rw [hs] at h
      have h2 : convertLoop rest = some tl := h
      have hl : ((p0 :: p1 :: p2 :: ps).length == 2) = false := by
        simp only [List.length_cons, beq_eq_false_iff_ne, ne_eq]
        omega
      simp only [List.filter_cons, hs, hl, Bool.false_eq_true, if_false]
      exact ih tl h2

theorem schedStep_pending_le_one (ds : Bool) (st : SchedState) (op : SchedOp)
    (h : st.pendingTimers ≤ 1) : (schedStep ds st op).pendingTimers ≤ 1 := by
  match op with
  | .timerExpiry => simp [schedStep, do_save]
  | .requestSave defer c k =>
    simp only [schedStep, save]
    by_cases hc : (!c) = true
    · simp [hc, h]
    · simp only [hc, if_false, Bool.not_eq_true] at *
      by_cases hk : (!k) = true
      · simp [hk, h]
      · simp only [hk, if_false, Bool.not_eq_true] at *
        by_cases hd : (!defer || !ds) = true
        · simp [hd, do_save]
        · simp only [hd, if_false]
          by_cases hz : st.pendingTimers = 0
          · simp [hz, h]
          · simp [hz, h]

/-! ### Claim theorems -/

/-- C1, counterexample: loading `["1.1.9", {"_NAME": "M"}, "bad"]` — a
version element, a well-formed record, then a non-mapping element — does
not return a version-only document: the record preceding the malformed
element survives in the parse result, contradicting the claim that no
record of the input appears. -/
theorem c1_claim_counterexample :
    isDictVal (Val.vStr "bad") = false ∧
    _parse_config "1.1.9" [.vStr "1.1.9", .vDict [(.ks "_NAME", .vStr "M")], .vStr "bad"] =
      [.version (.vStr "1.1.9"),
       .entry [("_NAME", .vStr "M"), ("_sensitive", defaultSensitive)]] ∧
    (_parse_config "1.1.9" [.vStr "1.1.9", .vDict [(.ks "_NAME", .vStr "M")], .vStr "bad"]).length ≠ 1 :=
  ⟨rfl, rfl, by decide⟩

/-- C1 (corrected): when a record element is not a mapping, parsing
aborts at that element — the parsed forms of the records preceding it
are kept in the result after the version element, and the malformed
element together with every element after it is discarded. -/
theorem c1_parse_abort_keeps_preceding_records :
    ∀ (cur : String) (v0 : Val) (pre : List Val) (bad : Val) (post : List Val) (es : List Entry),
      isDictVal bad = false →
      mapOpt (parseOne (!valEqStr v0 cur)) pre = some es →
      _parse_config cur (v0 :: (pre ++ bad :: post)) =
        ConfigElem.version (.vStr cur) :: es.map ConfigElem.entry := by
  intro cur v0 pre bad post es hbad hm
  simp only [_parse_config]
  rw [parseDevices_of_mapOpt (!valEqStr v0 cur) pre es bad post hm
    (parseOne_not_dict (!valEqStr v0 cur) bad hbad)]

/-- Witness for C1's theorem at the counterexample input. -/
theorem c1_parse_abort_keeps_preceding_records_witness :
    isDictVal (Val.vStr "bad") = false ∧
    mapOpt (parseOne (!valEqStr (Val.vStr "1.1.9") "1.1.9")) [Val.vDict [(.ks "_NAME", .vStr "M")]] =
      some [[("_NAME", Val.vStr "M"), ("_sensitive", defaultSensitive)]] ∧
    _parse_config "1.1.9"
        (Val.vStr "1.1.9" :: ([Val.vDict [(.ks "_NAME", .vStr "M")]] ++ Val.vStr "bad" :: [])) =
      ConfigElem.version (.vStr "1.1.9") ::
        ([[("_NAME", Val.vStr "M"), ("_sensitive", defaultSensitive)]].map ConfigElem.entry) :=
  ⟨rfl, rfl,
    c1_parse_abort_keeps_preceding_records "1.1.9" (.vStr "1.1.9")
      [Val.vDict [(.ks "_NAME", .vStr "M")]] (.vStr "bad") []
      [[("_NAME", Val.vStr "M"), ("_sensitive", defaultSensitive)]] rfl rfl⟩

/-- C5 (code bug per the spec's intent): the substitution of the unitId
is gated on `device.modelId == "000000000000"`, not on the unitId's own
value — a device with a non-sentinel modelId keeps an all-zero unitId
unsubstituted, and a device with a sentinel modelId gets its non-sentinel
unitId replaced by the serial; the modelId of a non-sentinel device is
untouched. -/
theorem c5_unitid_substitution_gated_on_modelid :
    effectiveUnitId ⟨some "N", none, some "SER", some "ABC123", some "000000000000", true⟩ =
      some "000000000000" ∧
    effectiveUnitId ⟨some "N", none, some "SER", some "000000000000", some "U1", true⟩ =
      some "SER" ∧
    effectiveModelId ⟨some "N", none, some "SER", some "ABC123", some "000000000000", true⟩ =
      some "ABC123" :=
  ⟨rfl, rfl, rfl⟩

/-- C6 (confirmed): when no stored record matches and the device is not
online, `persister` returns `None` and the document is unchanged — no
record is created, appended or mutated. -/
theorem c6_offline_no_match_unchanged :
    ∀ (d : Device) (cfg : List ConfigElem),
      findEntry d.wpid d.serial (effectiveModelId d) (effectiveUnitId d) cfg = none →
      d.online = false →
      persister d cfg = (none, cfg) := by
  intro d cfg hf ho
  simp [persister, hf, ho]

/-- Witness for C6 at a concrete offline, unmatched device. -/
theorem c6_offline_no_match_unchanged_witness :
    persister ⟨some "M", some "AB", some "S1", none, none, false⟩
        [.version (.vStr "1.1.9"), .entry [("_wpid", .vStr "CD"), ("_serial", .vStr "S2")]] =
      (none, [.version (.vStr "1.1.9"), .entry [("_wpid", .vStr "CD"), ("_serial", .vStr "S2")]]) :=
  c6_offline_no_match_unchanged
    ⟨some "M", some "AB", some "S1", none, none, false⟩
    [.version (.vStr "1.1.9"), .entry [("_wpid", .vStr "CD"), ("_serial", .vStr "S2")]] rfl rfl

/-- C7 (confirmed): a deferred save requested while a timer is pending is
absorbed (the state is unchanged — no second timer is started, reset or
stacked); `do_save` — timer expiry or a synchronous save — clears the
pending timer; and every sequence of save requests and writes preserves
"at most one pending timer". -/
theorem c7_single_pending_timer_invariant :
    (∀ (c k : Bool) (st : SchedState), 1 ≤ st.pendingTimers →
      schedStep true st (.requestSave true c k) = st) ∧
    (∀ st : SchedState, (do_save st).pendingTimers = 0) ∧
    (∀ (ds : Bool) (st : SchedState) (ops : List SchedOp),
      st.pendingTimers ≤ 1 → (schedRun ds st ops).pendingTimers ≤ 1) := by
  refine ⟨?absorb, fun _ => rfl, ?inv⟩
  · intro c k st h
    have hz : ¬ st.pendingTimers = 0 := by omega
    cases c <;> cases k <;> simp [schedStep, save, hz]
  · intro ds st ops
    induction ops generalizing st with
    | nil => intro h; simpa [schedRun] using h
    | cons op rest ih =>
      intro h
      have h2 := schedStep_pending_le_one ds st op h
      simpa [schedRun] using ih (schedStep ds st op) h2

/-- Witness for C7: absorbing request, clearing write, and a concrete
burst of requests and expiries staying at one pending timer at most. -/
theorem c7_single_pending_timer_invariant_witness :
    schedStep true { pendingTimers := 1, writes := 0 } (.requestSave true true true) =
      { pendingTimers := 1, writes := 0 } ∧
    (do_save { pendingTimers := 1, writes := 0 }).pendingTimers = 0 ∧
    (schedRun true { pendingTimers := 0, writes := 0 }
        [.requestSave true true true, .requestSave true true true, .timerExpiry,
         .requestSave true true true, .requestSave false true true]).pendingTimers ≤ 1 :=
  ⟨c7_single_pending_timer_invariant.1 true true { pendingTimers := 1, writes := 0 } (by decide),
   c7_single_pending_timer_invariant.2.1 { pendingTimers := 1, writes := 0 },
   c7_single_pending_timer_invariant.2.2 true { pendingTimers := 0, writes := 0 }
     [.requestSave true true true, .requestSave true true true, .timerExpiry,
      .requestSave true true true, .requestSave false true true] (by decide)⟩

/-- C8 (confirmed): converting the legacy JSON document
`{"_version": "0.9", "AABB:12345": {"_name": "Mouse", "mouse-gestures": true}}`
yields `["0.9", rec]` where, as a mapping, `rec` is exactly
`{"_NAME": "Mouse", "_wpid": "AABB", "_serial": "12345"}` — the composite
key is split, `_name` is renamed and the boolean `mouse-gestures` is
dropped. -/
theorem c8_legacy_json_example :
    _convert_json
        [("_version", .vStr "0.9"),
         ("AABB:12345", .vDict [(.ks "_name", .vStr "Mouse"), (.ks "mouse-gestures", .vBool true)])] =
      some
        [.vStr "0.9",
         .vDict [(.ks "_wpid", .vStr "AABB"), (.ks "_serial", .vStr "12345"),
                 (.ks "_NAME", .vStr "Mouse")]] ∧
    lookupK (.ks "_NAME")
        [(.ks "_wpid", .vStr "AABB"), (.ks "_serial", .vStr "12345"), (.ks "_NAME", .vStr "Mouse")] =
      some (.vStr "Mouse") ∧
    lookupK (.ks "_wpid")
        [(.ks "_wpid", .vStr "AABB"), (.ks "_serial", .vStr "12345"), (.ks "_NAME", .vStr "Mouse")] =
      some (.vStr "AABB") ∧
    lookupK (.ks "_serial")
        [(.ks "_wpid", .vStr "AABB"), (.ks "_serial", .vStr "12345"), (.ks "_NAME", .vStr "Mouse")] =
      some (.vStr "12345") ∧
    ([(Key.ks "_wpid", Val.vStr "AABB"), (.ks "_serial", .vStr "12345"),
      (.ks "_NAME", .vStr "Mouse")] : List (Key × Val)).length = 3 ∧
    lookupK (.ks "mouse-gestures")
        [(.ks "_wpid", .vStr "AABB"), (.ks "_serial", .vStr "12345"), (.ks "_NAME", .vStr "Mouse")] =
      none ∧
    lookupK (.ks "_name")
        [(.ks "_wpid", .vStr "AABB"), (.ks "_serial", .vStr "12345"), (.ks "_NAME", .vStr "Mouse")] =
      none :=
  ⟨rfl, rfl, rfl, rfl, rfl, rfl, rfl⟩

/-- C9 (confirmed): for every input document the first element of the
parse result is the current application version, never the version tag
loaded from the file. -/
theorem c9_head_is_current_version :
    ∀ (cur : String) (loaded : List Val),
      (_parse_config cur loaded).head? = some (.version (.vStr cur)) := by
  intro cur loaded
  cases loaded <;> rfl

/-- C2, counterexample: for the live device with modelId
`"000000000000"`, name `"Keyboard K1"` and serial `"SER1"`, the record
returned by `persister` holds the substituted name in `_modelId` and the
substituted serial in `_unitId` — the substitution is persisted, not
used for matching only. -/
theorem c2_claim_counterexample :
    (persister ⟨some "Keyboard K1", none, some "SER1", some "000000000000", some "U1", true⟩
        [.version (.vStr "1.1.9")]).1 =
      some [("_NAME", Val.vStr "Keyboard K1"), ("_serial", Val.vStr "SER1"),
            ("_modelId", Val.vStr "Keyboard K1"), ("_unitId", Val.vStr "SER1")] ∧
    lookupE "_modelId"
        [("_NAME", Val.vStr "Keyboard K1"), ("_serial", Val.vStr "SER1"),
         ("_modelId", Val.vStr "Keyboard K1"), ("_unitId", Val.vStr "SER1")] =
      some (.vStr "Keyboard K1") ∧
    lookupE "_unitId"
        [("_NAME", Val.vStr "Keyboard K1"), ("_serial", Val.vStr "SER1"),
         ("_modelId", Val.vStr "Keyboard K1"), ("_unitId", Val.vStr "SER1")] =
      some (.vStr "SER1") ∧
    ¬ lookupE "_modelId"
        [("_NAME", Val.vStr "Keyboard K1"), ("_serial", Val.vStr "SER1"),
         ("_modelId", Val.vStr "Keyboard K1"), ("_unitId", Val.vStr "SER1")] =
      some (.vStr "000000000000") := by
  refine ⟨rfl, rfl, rfl, ?ne⟩
  intro hcontra
  rw [show lookupE "_modelId"
      [("_NAME", Val.vStr "Keyboard K1"), ("_serial", Val.vStr "SER1"),
       ("_modelId", Val.vStr "Keyboard K1"), ("_unitId", Val.vStr "SER1")] =
      some (Val.vStr "Keyboard K1") from rfl] at hcontra
  injection hcontra with h1
  injection h1 with h2
  exact absurd h2 (by decide)

/-- C2 (corrected): for a device whose modelId is the all-zero sentinel,
`persister` substitutes the device name and serial not only for matching
but also in the identity update — whenever it returns a record, that
record's `_modelId` holds the device name and `_unitId` holds the device
serial. -/
theorem c2_substituted_identity_persisted :
    ∀ (d : Device) (cfg : List ConfigElem) (e : Entry) (cfg2 : List ConfigElem) (nm sr : String),
      d.modelId = some "000000000000" →
      d.name = some nm → nm ≠ "" →
      truthyOpt d.unitId = true →
      d.serial = some sr → sr ≠ "" →
      persister d cfg = (some e, cfg2) →
      lookupE "_modelId" e = some (.vStr nm) ∧ lookupE "_unitId" e = some (.vStr sr) := by
  intro d cfg e cfg2 nm sr hmid hnm hnm2 hu hsr hsr2 hp
  have hM : effectiveModelId d = some nm := by
    unfold effectiveModelId
    rw [hmid, if_neg (by simp), if_pos (by rfl)]
    exact hnm
  have hU : effectiveUnitId d = some sr := by
    unfold effectiveUnitId
    rw [hmid, if_neg (by simp), if_pos hu]
    exact hsr
  have key : ∀ (x : Entry),
      lookupE "_modelId" ((entryUpdate x d.name d.wpid d.serial
          (effectiveModelId d) (effectiveUnitId d)).1) = some (.vStr nm) ∧
      lookupE "_unitId" ((entryUpdate x d.name d.wpid d.serial
          (effectiveModelId d) (effectiveUnitId d)).1) = some (.vStr sr) := by
    intro x
    rw [hM, hU]
    constructor
    · simp only [entryUpdate]
      rw [lookup_updFld_ne _ _ _ _ (by decide)]
      exact lookup_updFld_self _ _ _ hnm2
    · simp only [entryUpdate]
      exact lookup_updFld_self _ _ _ hsr2
  unfold persister at hp
  split at hp
  · next c heq =>
    have h1 : some ((entryUpdate c d.name d.wpid d.serial
        (effectiveModelId d) (effectiveUnitId d)).1) = some e := congrArg Prod.fst hp
    injection h1 with h1
    rw [← h1]
    exact key c
  · next heq =>
    split at hp
    · exact absurd (congrArg Prod.fst hp) (by simp)
    · have h1 : some ((entryUpdate [] d.name d.wpid d.serial
          (effectiveModelId d) (effectiveUnitId d)).1) = some e := congrArg Prod.fst hp
      injection h1 with h1
      rw [← h1]
      exact key []

/-- Witness for C2's theorem at the counterexample device. -/
theorem c2_substituted_identity_persisted_witness :
    persister ⟨some "Keyboard K1", none, some "SER1", some "000000000000", some "U1", true⟩
        [.version (.vStr "1.1.9")] =
      (some [("_NAME", Val.vStr "Keyboard K1"), ("_serial", Val.vStr "SER1"),
             ("_modelId", Val.vStr "Keyboard K1"), ("_unitId", Val.vStr "SER1")],
       [.version (.vStr "1.1.9"),
        .entry [("_NAME", Val.vStr "Keyboard K1"), ("_serial", Val.vStr "SER1"),
                ("_modelId", Val.vStr "Keyboard K1"), ("_unitId", Val.vStr "SER1")]]) ∧
    lookupE "_modelId"
        [("_NAME", Val.vStr "Keyboard K1"), ("_serial", Val.vStr "SER1"),
         ("_modelId", Val.vStr "Keyboard K1"), ("_unitId", Val.vStr "SER1")] =
      some (.vStr "Keyboard K1") ∧
    lookupE "_unitId"
        [("_NAME", Val.vStr "Keyboard K1"), ("_serial", Val.vStr "SER1"),
         ("_modelId", Val.vStr "Keyboard K1"), ("_unitId", Val.vStr "SER1")] =
      some (.vStr "SER1") := by
  refine ⟨rfl, ?rest⟩
  exact c2_substituted_identity_persisted
    ⟨some "Keyboard K1", none, some "SER1", some "000000000000", some "U1", true⟩
    [.version (.vStr "1.1.9")]
    [("_NAME", Val.vStr "Keyboard K1"), ("_serial", Val.vStr "SER1"),
     ("_modelId", Val.vStr "Keyboard K1"), ("_unitId", Val.vStr "SER1")]
    [.version (.vStr "1.1.9"),
     .entry [("_NAME", Val.vStr "Keyboard K1"), ("_serial", Val.vStr "SER1"),
             ("_modelId", Val.vStr "Keyboard K1"), ("_unitId", Val.vStr "SER1")]]
    "Keyboard K1" "SER1" rfl rfl (by decide) rfl rfl (by decide) rfl

/-- C3, counterexample: calling `update` twice with the identical
non-empty tuple issues zero underlying save requests in total, not
exactly one — `update` writes through the plain dict setter, which never
schedules a save. -/
theorem c3_claim_counterexample :
    ((entryUpdate [] (some "N") (some "W") (some "S") (some "M") (some "U")).2 +
      (entryUpdate (entryUpdate [] (some "N") (some "W") (some "S") (some "M") (some "U")).1
        (some "N") (some "W") (some "S") (some "M") (some "U")).2) = 0 ∧
    ¬ ((entryUpdate [] (some "N") (some "W") (some "S") (some "M") (some "U")).2 +
      (entryUpdate (entryUpdate [] (some "N") (some "W") (some "S") (some "M") (some "U")).1
        (some "N") (some "W") (some "S") (some "M") (some "U")).2) = 1 :=
  ⟨rfl, by decide⟩

/-- C3 (corrected): two successive `update` calls with the identical
tuple of non-empty values issue zero save requests in total — the writes
go through the base dict setter, bypassing the save-scheduling
`__setitem__` — and the second call is a no-op leaving the record
unchanged. -/
theorem c3_update_twice_zero_saves :
    ∀ (e : Entry) (ns ws ss ms us : String),
      ns ≠ "" → ws ≠ "" → ss ≠ "" → ms ≠ "" → us ≠ "" →
      (entryUpdate (entryUpdate e (some ns) (some ws) (some ss) (some ms) (some us)).1
          (some ns) (some ws) (some ss) (some ms) (some us)).1 =
        (entryUpdate e (some ns) (some ws) (some ss) (some ms) (some us)).1 ∧
      (entryUpdate e (some ns) (some ws) (some ss) (some ms) (some us)).2 = 0 ∧
      (entryUpdate (entryUpdate e (some ns) (some ws) (some ss) (some ms) (some us)).1
          (some ns) (some ws) (some ss) (some ms) (some us)).2 = 0 := by
  intro e ns ws ss ms us hns hws hss hms hus
  refine ⟨?noop, rfl, rfl⟩
  have key : ∀ (x : Entry),
      lookupE "_NAME" x = some (.vStr ns) →
      lookupE "_wpid" x = some (.vStr ws) →
      lookupE "_serial" x = some (.vStr ss) →
      lookupE "_modelId" x = some (.vStr ms) →
      lookupE "_unitId" x = some (.vStr us) →
      (entryUpdate x (some ns) (some ws) (some ss) (some ms) (some us)).1 = x := by
    intro x h1 h2 h3 h4 h5
    simp only [entryUpdate]
    rw [updFld_noop _ _ _ h1, updFld_noop _ _ _ h2, updFld_noop _ _ _ h3,
      updFld_noop _ _ _ h4, updFld_noop _ _ _ h5]
  refine key _ ?l1 ?l2 ?l3 ?l4 ?l5
  · simp only [entryUpdate]
    rw [lookup_updFld_ne _ _ _ _ (by decide), lookup_updFld_ne _ _ _ _ (by decide),
      lookup_updFld_ne _ _ _ _ (by decide), lookup_updFld_ne _ _ _ _ (by decide)]
    exact lookup_updFld_self _ _ _ hns
  · simp only [entryUpdate]
    rw [lookup_updFld_ne _ _ _ _ (by decide), lookup_updFld_ne _ _ _ _ (by decide),
      lookup_updFld_ne _ _ _ _ (by decide)]
    exact lookup_updFld_self _ _ _ hws
  · simp only [entryUpdate]
    rw [lookup_updFld_ne _ _ _ _ (by decide), lookup_updFld_ne _ _ _ _ (by decide)]
    exact lookup_updFld_self _ _ _ hss
  · simp only [entryUpdate]
    rw [lookup_updFld_ne _ _ _ _ (by decide)]
    exact lookup_updFld_self _ _ _ hms
  · simp only [entryUpdate]
    exact lookup_updFld_self _ _ _ hus

/-- Witness for C3's theorem at a concrete record and tuple. -/
theorem c3_update_twice_zero_saves_witness :
    (entryUpdate (entryUpdate [] (some "N") (some "W") (some "S") (some "M") (some "U")).1
        (some "N") (some "W") (some "S") (some "M") (some "U")).1 =
      (entryUpdate [] (some "N") (some "W") (some "S") (some "M") (some "U")).1 ∧
    (entryUpdate [] (some "N") (some "W") (some "S") (some "M") (some "U")).2 = 0 ∧
    (entryUpdate (entryUpdate [] (some "N") (some "W") (some "S") (some "M") (some "U")).1
        (some "N") (some "W") (some "S") (some "M") (some "U")).2 = 0 :=
  c3_update_twice_zero_saves [] "N" "W" "S" "M" "U"
    (by decide) (by decide) (by decide) (by decide) (by decide)

/-- C4 (confirmed): the code's matching predicate coincides with the
spec's rule — equality on the (wpid, serial) pair or on the
(modelId, unitId) pair, each pair non-empty — and the document scan
returns the first matching record in document order, so a matching
record is found wherever it sits among non-matching ones. -/
theorem c4_match_rule_and_first_match :
    (∀ (w s m u : Option String) (c : Entry),
      pmatch w s m u c = true ↔ matchSpec w s m u c) ∧
    (∀ (w s m u : Option String) (pre : List ConfigElem) (r : Entry) (post : List ConfigElem),
      (∀ c, ConfigElem.entry c ∈ pre → pmatch w s m u c = false) →
      pmatch w s m u r = true →
      findEntry w s m u (pre ++ ConfigElem.entry r :: post) = some r) := by
  constructor
  · intro w s m u c
    unfold pmatch matchSpec
    constructor
    · intro h
      simp only [Bool.or_eq_true, Bool.and_eq_true] at h
      rcases h with ⟨⟨⟨hw, hew⟩, hs⟩, hes⟩ | ⟨⟨⟨hm, hem⟩, hu⟩, heu⟩
      · obtain ⟨sw, hw1, hw2⟩ := (truthyOpt_eq_true_iff w).mp hw
        subst hw1
        obtain ⟨ss, hs1, hs2⟩ := (truthyOpt_eq_true_iff s).mp hs
        subst hs1
        exact Or.inl ⟨sw, ss, rfl, rfl, hw2, hs2,
          (optEqVal_some_iff sw _).mp hew, (optEqVal_some_iff ss _).mp hes⟩
      · obtain ⟨sm, hm1, hm2⟩ := (truthyOpt_eq_true_iff m).mp hm
        subst hm1
        obtain ⟨su, hu1, hu2⟩ := (truthyOpt_eq_true_iff u).mp hu
        subst hu1
        exact Or.inr ⟨sm, su, rfl, rfl, hm2, hu2,
          (optEqVal_some_iff sm _).mp hem, (optEqVal_some_iff su _).mp heu⟩
    · intro h
      simp only [Bool.or_eq_true, Bool.and_eq_true]
      rcases h with ⟨sw, ss, h1, h2, h3, h4, h5, h6⟩ | ⟨sm, su, h1, h2, h3, h4, h5, h6⟩
      · subst h1
        subst h2
        exact Or.inl ⟨⟨⟨(truthyOpt_eq_true_iff _).mpr ⟨sw, rfl, h3⟩,
          (optEqVal_some_iff _ _).mpr h5⟩,
          (truthyOpt_eq_true_iff _).mpr ⟨ss, rfl, h4⟩⟩,
          (optEqVal_some_iff _ _).mpr h6⟩
      · subst h1
        subst h2
        exact Or.inr ⟨⟨⟨(truthyOpt_eq_true_iff _).mpr ⟨sm, rfl, h3⟩,
          (optEqVal_some_iff _ _).mpr h5⟩,
          (truthyOpt_eq_true_iff _).mpr ⟨su, rfl, h4⟩⟩,
          (optEqVal_some_iff _ _).mpr h6⟩
  · intro w s m u
    exact findEntry_cons_first w s m u

/-- Witness for C4: the fallback-substitution match of the spec's
example, and a two-record document where the matching record is found in
second position behind a non-matching one. -/
theorem c4_match_rule_and_first_match_witness :
    pmatch (some "AB") (some "S1") none none
      [("_wpid", Val.vStr "AB"), ("_serial", Val.vStr "S1")] = true ∧
    findEntry (some "AB") (some "S1") none none
        [.entry [("_wpid", Val.vStr "CD"), ("_serial", Val.vStr "S2")],
         .entry [("_wpid", Val.vStr "AB"), ("_serial", Val.vStr "S1")]] =
      some [("_wpid", Val.vStr "AB"), ("_serial", Val.vStr "S1")] := by
  constructor
  · exact (c4_match_rule_and_first_match.1 (some "AB") (some "S1") none none
      [("_wpid", Val.vStr "AB"), ("_serial", Val.vStr "S1")]).mpr
      (Or.inl ⟨"AB", "S1", rfl, rfl, by decide, by decide, rfl, rfl⟩)
  · refine c4_match_rule_and_first_match.2 (some "AB") (some "S1") none none
      [.entry [("_wpid", Val.vStr "CD"), ("_serial", Val.vStr "S2")]]
      [("_wpid", Val.vStr "AB"), ("_serial", Val.vStr "S1")] [] ?hpre rfl
    intro c hc
    simp only [List.mem_singleton] at hc
    injection hc with hc2
    rw [hc2]
    rfl

/-- C10 (confirmed): whenever the legacy converter succeeds, element 0
of its output is the top-level `_version` value (null when missing), and
the remaining elements are exactly the converted forms of exactly those
top-level entries whose key splits on `":"` into two parts, in document
order — entries with any other number of parts contribute nothing. -/
theorem c10_convert_exactly_two_part_keys :
    ∀ (j : List (String × Val)) (out : List Val),
      _convert_json j = some out →
      out.head? = some ((lookupE "_version" j).getD .vNull) ∧
      mapOpt convertKeyed (j.filter fun kv => (pySplitColon kv.1).length == 2) =
        some out.tail := by
  intro j out h
  unfold _convert_json at h
  match hc : convertLoop j with
  | none => rw [hc] at h; exact absurd h (by simp)
  | some tl =>
    rw [hc] at h
    simp only [Option.some.injEq] at h
    subst h
    exact ⟨rfl, convertLoop_filter j tl hc⟩

/-- Witness for C10 at a document with a two-part key and a three-part
key. -/
theorem c10_convert_exactly_two_part_keys_witness :
    _convert_json
        [("_version", Val.vStr "1.0"), ("AA:BB", .vDict [(.ks "x", .vInt 1)]),
         ("k:v:x", .vDict [])] =
      some
        [Val.vStr "1.0",
         .vDict [(.ks "x", .vInt 1), (.ks "_wpid", .vStr "AA"), (.ks "_serial", .vStr "BB")]] ∧
    ([Val.vStr "1.0",
      Val.vDict [(.ks "x", .vInt 1), (.ks "_wpid", .vStr "AA"),
        (.ks "_serial", .vStr "BB")]] : List Val).head? =
      some ((lookupE "_version"
        [("_version", Val.vStr "1.0"), ("AA:BB", .vDict [(.ks "x", .vInt 1)]),
         ("k:v:x", .vDict [])]).getD .vNull) ∧
    mapOpt convertKeyed
        (([("_version", Val.vStr "1.0"), ("AA:BB", Val.vDict [(.ks "x", .vInt 1)]),
           ("k:v:x", Val.vDict [])] : List (String × Val)).filter
          fun kv => (pySplitColon kv.1).length == 2) =
      some ([Val.vStr "1.0",
        Val.vDict [(.ks "x", .vInt 1), (.ks "_wpid", .vStr "AA"),
          (.ks "_serial", .vStr "BB")]] : List Val).tail :=
  ⟨rfl,
    (c10_convert_exactly_two_part_keys
      [("_version", Val.vStr "1.0"), ("AA:BB", .vDict [(.ks "x", .vInt 1)]), ("k:v:x", .vDict [])]
      [Val.vStr "1.0",
       .vDict [(.ks "x", .vInt 1), (.ks "_wpid", .vStr "AA"), (.ks "_serial", .vStr "BB")]]
      rfl).1,
    (c10_convert_exactly_two_part_keys
      [("_version", Val.vStr "1.0"), ("AA:BB", .vDict [(.ks "x", .vInt 1)]), ("k:v:x", .vDict [])]
      [Val.vStr "1.0",
       .vDict [(.ks "x", .vInt 1), (.ks "_wpid", .vStr "AA"), (.ks "_serial", .vStr "BB")]]
      rfl).2⟩

end SolaarCfg

